import Mathlib

/-!
# Threshold-profile resource adapter of the Site24x7 provider

A shallow embedding of `site24x7/threshold_profile.go`: the lifecycle handlers
(`thresholdProfileCreate`, `thresholdProfileRead`, `thresholdProfileUpdate`,
`thresholdProfileDelete`, `thresholdProfileExists`), the two converters
(`resourceDataToThresholdProfile`, `updateThresholdProfileResourceData`) and the
validators of the `website_content_changes` entry of `ThresholdProfileSchema`.

Modelling conventions.

* A Go `interface{}` value is a `GoValue`: a dynamic type tag together with the
  value. A `map[string]interface{}` is an association list read and written by
  key (`mapIndex`, `mapAssign`).
* A run-time panic is `Except.error`; Go's `error` results are `Option Err`
  (`none` is `nil`) over an arbitrary type `Err` of error values.
* `*schema.ResourceData` is a record with one field per key of
  `ThresholdProfileSchema`, typed as the schema types it, plus the resource id.
  `d.Set` stores a value under its key as the host decodes it for the schema
  type of the key; a value the host cannot decode is refused and the state is
  unchanged (the handlers drop the error of `d.Set`).
* The endpoint client is a record of programmed responses; the calls a handler
  issues are recorded in the `calls` field of its outcome.
-/

namespace Site24x7

/-! ## Go values -/

/-- A value held in a Go `interface{}`: its dynamic type and its value.
`float64 n` is the `float64` whose value is the integer `n` (what
`encoding/json` produces for the JSON number `n` when it decodes into an
`interface{}`); `slice` is `[]interface{}`, `mapSlice` is
`[]map[string]interface{}`, `map` is `map[string]interface{}`. -/
inductive GoValue where
  | nil
  | int (n : Int)
  | float64 (n : Int)
  | str (s : String)
  | bool (b : Bool)
  | map (m : List (String × GoValue))
  | slice (xs : List GoValue)
  | mapSlice (xs : List (List (String × GoValue)))

/-- The Go type `map[string]interface{}`. -/
abbrev GoMap := List (String × GoValue)

/-- The Go expression `v, ok := m[k]`: `none` when the key is absent. -/
def mapIndex : GoMap → String → Option GoValue
  | [], _ => none
  | (k', v) :: rest, k => if k' = k then some v else mapIndex rest k

/-- The Go statement `m[k] = v`. -/
def mapAssign : GoMap → String → GoValue → GoMap
  | [], k, v => [(k, v)]
  | (k', v') :: rest, k, v =>
    if k' = k then (k, v) :: rest else (k', v') :: mapAssign rest k v

/-- The Go comparison `x == n` of an `interface{}` value `x` with an untyped
integer constant `n`: the constant takes its default type `int`, and two
interface values are equal when they have identical dynamic types and equal
values. -/
def ifaceEqInt : GoValue → Int → Bool
  | .int k, n => k == n
  | _, _ => false

/-- The run-time panics the adapter can raise. -/
inductive Panic where
  | interfaceConversion
  | nilDereference
  deriving DecidableEq, Repr

/-! ## Entity and host state -/

/-- The entity `api.ThresholdProfile`, with the fields the adapter reads and
writes (lines 368-377 of the source); `Type_` is its field `Type`. -/
structure ThresholdProfile where
  ProfileID : String
  ProfileName : String
  Type_ : String
  ProfileType : Int
  DownLocationThreshold : Int
  WebsiteContentModified : Bool
  WebsiteContentChanges : List GoMap
  ResponseTimeThreshold : GoMap

/-- The host state `*schema.ResourceData` of a threshold profile: the resource
id and one field per key of `ThresholdProfileSchema`. An unset list or map is
empty. -/
structure ResourceData where
  id : String
  profile_name : String
  type : String
  profile_type : Int
  down_location_threshold : Int
  website_content_modified : Bool
  website_content_changes : List GoValue
  primary_response_time_trouble_threshold : GoMap
  primary_response_time_critical_threshold : GoMap
  secondary_response_time_trouble_threshold : GoMap
  secondary_response_time_critical_threshold : GoMap

/-- The method `d.Id()`. -/
def ResourceData.Id (d : ResourceData) : String := d.id

/-- The method `d.SetId(v)`. -/
def ResourceData.SetId (d : ResourceData) (v : String) : ResourceData :=
  { d with id := v }

/-- Whether every value of the map is a Go string. The host keeps the
elements of a map whose `Elem` is a resource as strings, and refuses to write
a value of another kind into one. -/
def allStrings (m : GoMap) : Bool :=
  m.all fun kv =>
    match kv.2 with
    | .str _ => true
    | _ => false

/-- The integer the host decodes a value into when it writes a field of type
int: an `int` or a `float64` decodes, every other kind is refused. -/
def decodeInt : GoValue → Option Int
  | .int n => some n
  | .float64 n => some n
  | _ => none

/-- The field `k` of a `website_content_changes` entry as the host stores it:
the decoded integer, the zero value when the entry has no such key. -/
def contentChangeField (m : GoMap) (k : String) : Option Int :=
  match mapIndex m k with
  | some v => decodeInt v
  | none => some 0

/-- An entry of `website_content_changes` as the host stores it: the three
fields of the element schema, each an integer. An entry with a key outside the
element schema, or with a value that does not decode, is refused. -/
def normaliseContentChange (m : GoMap) : Option GoValue :=
  if m.all fun kv => kv.1 = "severity" ∨ kv.1 = "comparison_operator" ∨ kv.1 = "value" then
    match contentChangeField m "severity", contentChangeField m "comparison_operator",
      contentChangeField m "value" with
    | some severity, some comparison_operator, some value =>
      some (.map [("severity", .int severity),
        ("comparison_operator", .int comparison_operator), ("value", .int value)])
    | _, _, _ => none
  else none

/-- An element of a `[]interface{}` written to `website_content_changes`: it
has to be a map, and is stored as `normaliseContentChange` gives it. -/
def normaliseContentChangeValue : GoValue → Option GoValue
  | .map m => normaliseContentChange m
  | _ => none

/-- The method `d.Set(key, value)`: stores the value under the key as the host
decodes it for the schema type of the key, and leaves the state unchanged when
the host refuses the value. A threshold map is stored when all its values are
strings; the entries of `website_content_changes` are stored normalised. -/
def ResourceData.Set (d : ResourceData) (key : String) (value : GoValue) : ResourceData :=
  match key, value with
  | "profile_name", .str s => { d with profile_name := s }
  | "type", .str s => { d with type := s }
  | "profile_type", .int n => { d with profile_type := n }
  | "down_location_threshold", .int n => { d with down_location_threshold := n }
  | "website_content_modified", .bool b => { d with website_content_modified := b }
  | "website_content_changes", .mapSlice xs =>
    { d with website_content_changes :=
        match xs.mapM normaliseContentChange with
        | some stored => stored
        | none => d.website_content_changes }
  | "website_content_changes", .slice xs =>
    { d with website_content_changes :=
        match xs.mapM normaliseContentChangeValue with
        | some stored => stored
        | none => d.website_content_changes }
  | "primary_response_time_trouble_threshold", .map m =>
    { d with primary_response_time_trouble_threshold :=
        if allStrings m then m else d.primary_response_time_trouble_threshold }
  | "primary_response_time_critical_threshold", .map m =>
    { d with primary_response_time_critical_threshold :=
        if allStrings m then m else d.primary_response_time_critical_threshold }
  | "secondary_response_time_trouble_threshold", .map m =>
    { d with secondary_response_time_trouble_threshold :=
        if allStrings m then m else d.secondary_response_time_trouble_threshold }
  | "secondary_response_time_critical_threshold", .map m =>
    { d with secondary_response_time_critical_threshold :=
        if allStrings m then m else d.secondary_response_time_critical_threshold }
  | _, _ => d

/-- The `ok` of `d.GetOk(key)` for a key of type map: the value is set and is
not the zero value, the empty map. -/
def GetOkMap (m : GoMap) : Bool := !m.isEmpty

/-- The `ok` of `d.GetOk(key)` for a key of type list. -/
def GetOkList (xs : List GoValue) : Bool := !xs.isEmpty

/-! ## Converters -/

/-- The source function `resourceDataToThresholdProfile`. -/
def resourceDataToThresholdProfile (d : ResourceData) : ThresholdProfile :=
  let websiteContentChanges : List GoMap :=
    if GetOkList d.website_content_changes then
      d.website_content_changes.filterMap fun urlContentChanges =>
        match urlContentChanges with
        | .map urlContentChangesMap => some urlContentChangesMap
        | _ => none
    else []
  -- Response Time Threshold
  let responseTimeThresholdMap : GoMap := []
  let primaryThresholdList : List GoMap := []
  let secondaryThresholdList : List GoMap := []
  -- Primary Threshold
  let primaryThresholdList :=
    if GetOkMap d.primary_response_time_trouble_threshold then
      primaryThresholdList ++
        [mapAssign d.primary_response_time_trouble_threshold "severity" (.str "2")]
    else primaryThresholdList
  let primaryThresholdList :=
    if GetOkMap d.primary_response_time_critical_threshold then
      primaryThresholdList ++
        [mapAssign d.primary_response_time_critical_threshold "severity" (.str "3")]
    else primaryThresholdList
  -- Secondary Threshold
  let secondaryThresholdList :=
    if GetOkMap d.secondary_response_time_trouble_threshold then
      secondaryThresholdList ++
        [mapAssign d.secondary_response_time_trouble_threshold "severity" (.str "2")]
    else secondaryThresholdList
  let secondaryThresholdList :=
    if GetOkMap d.secondary_response_time_critical_threshold then
      secondaryThresholdList ++
        [mapAssign d.secondary_response_time_critical_threshold "severity" (.str "3")]
    else secondaryThresholdList
  let responseTimeThresholdMap :=
    if primaryThresholdList.length > 0 then
      mapAssign responseTimeThresholdMap "primary" (.mapSlice primaryThresholdList)
    else responseTimeThresholdMap
  let responseTimeThresholdMap :=
    if secondaryThresholdList.length > 0 then
      mapAssign responseTimeThresholdMap "secondary" (.mapSlice secondaryThresholdList)
    else responseTimeThresholdMap
  { ProfileID := d.Id
    ProfileName := d.profile_name
    Type_ := d.type
    ProfileType := d.profile_type
    DownLocationThreshold := d.down_location_threshold
    WebsiteContentModified := d.website_content_modified
    WebsiteContentChanges := websiteContentChanges
    ResponseTimeThreshold := responseTimeThresholdMap }

/-- The loop over `primaryThresholdList` in `updateThresholdProfileResourceData`
(lines 392-403): each element is asserted to be a map and dispatched on its
`severity`. -/
def primaryThresholdLoop : ResourceData → List GoValue → Except Panic ResourceData
  | d, [] => .ok d
  | d, primaryThresh :: rest =>
    match primaryThresh with
    | .map primaryThresholdMap =>
      match mapIndex primaryThresholdMap "severity" with
      | some primarySeverity =>
        let d :=
          if ifaceEqInt primarySeverity 2 then
            d.Set "primary_response_time_trouble_threshold" (.map primaryThresholdMap)
          else d
        let d :=
          if ifaceEqInt primarySeverity 3 then
            d.Set "primary_response_time_critical_threshold" (.map primaryThresholdMap)
          else d
        primaryThresholdLoop d rest
      | none => primaryThresholdLoop d rest
    | _ => .error .interfaceConversion

/-- The loop over `secondaryThresholdList` in
`updateThresholdProfileResourceData` (lines 411-422). -/
def secondaryThresholdLoop : ResourceData → List GoValue → Except Panic ResourceData
  | d, [] => .ok d
  | d, secondaryThresh :: rest =>
    match secondaryThresh with
    | .map secondaryThresholdMap =>
      match mapIndex secondaryThresholdMap "severity" with
      | some secondarySeverity =>
        let d :=
          if ifaceEqInt secondarySeverity 2 then
            d.Set "secondary_response_time_trouble_threshold" (.map secondaryThresholdMap)
          else d
        let d :=
          if ifaceEqInt secondarySeverity 3 then
            d.Set "secondary_response_time_critical_threshold" (.map secondaryThresholdMap)
          else d
        secondaryThresholdLoop d rest
      | none => secondaryThresholdLoop d rest
    | _ => .error .interfaceConversion

/-- Lines 382-387 of `updateThresholdProfileResourceData`: the six fields
that are written back as they are. -/
def updateProfileFields (d : ResourceData) (thresholdProfile : ThresholdProfile) :
    ResourceData :=
  let d := d.Set "profile_name" (.str thresholdProfile.ProfileName)
  let d := d.Set "type" (.str thresholdProfile.Type_)
  let d := d.Set "profile_type" (.int thresholdProfile.ProfileType)
  let d := d.Set "down_location_threshold" (.int thresholdProfile.DownLocationThreshold)
  let d := d.Set "website_content_modified" (.bool thresholdProfile.WebsiteContentModified)
  d.Set "website_content_changes" (.mapSlice thresholdProfile.WebsiteContentChanges)

/-- Lines 388-406 of `updateThresholdProfileResourceData`: the primary
thresholds. The type assertion `.([]interface{})` panics on every value that
is not a `[]interface{}`, a `[]map[string]interface{}` included. -/
def updatePrimaryThreshold (d : ResourceData) (thresholdProfile : ThresholdProfile) :
    Except Panic ResourceData :=
  match mapIndex thresholdProfile.ResponseTimeThreshold "primary" with
  | some primaryThreshold =>
    match primaryThreshold with
    | .slice primaryThresholdList =>
      if primaryThresholdList.length > 0 then primaryThresholdLoop d primaryThresholdList
      else .ok d
    | _ => .error .interfaceConversion
  | none => .ok d

/-- Lines 407-425 of `updateThresholdProfileResourceData`: the secondary
thresholds. -/
def updateSecondaryThreshold (d : ResourceData) (thresholdProfile : ThresholdProfile) :
    Except Panic ResourceData :=
  match mapIndex thresholdProfile.ResponseTimeThreshold "secondary" with
  | some secondaryThreshold =>
    match secondaryThreshold with
    | .slice secondaryThresholdList =>
      if secondaryThresholdList.length > 0 then
        secondaryThresholdLoop d secondaryThresholdList
      else .ok d
    | _ => .error .interfaceConversion
  | none => .ok d

/-- The source function `updateThresholdProfileResourceData`, called with a
non-nil entity: the three parts in order, a panic of one ending the call. -/
def updateThresholdProfileResourceData (d : ResourceData)
    (thresholdProfile : ThresholdProfile) : Except Panic ResourceData :=
  match updatePrimaryThreshold (updateProfileFields d thresholdProfile) thresholdProfile with
  | .ok d => updateSecondaryThreshold d thresholdProfile
  | .error p => .error p

/-! ## Endpoint client and lifecycle handlers -/

/-- The endpoint `endpoints.ThresholdProfiles` as the handlers use it: each
method answers with its programmed response, a pair of a pointer (`none` is
`nil`) and an error for `Get`, `Create` and `Update`. -/
structure ThresholdProfilesEndpoint (Err : Type) where
  Get : String → Option ThresholdProfile × Option Err
  Create : ThresholdProfile → Option ThresholdProfile × Option Err
  Update : ThresholdProfile → Option ThresholdProfile × Option Err
  Delete : String → Option Err

/-- The interface `Client`, restricted to the accessor the handlers use. -/
structure Client (Err : Type) where
  ThresholdProfiles : ThresholdProfilesEndpoint Err

/-- An endpoint call issued by a handler, with its argument. -/
inductive Call where
  | Get (id : String)
  | Create (thresholdProfile : ThresholdProfile)
  | Update (thresholdProfile : ThresholdProfile)
  | Delete (id : String)

/-- What a handler leaves behind: the host state, the endpoint calls it issued
in order, and its return value. -/
structure Outcome (ρ : Type) where
  d : ResourceData
  calls : List Call
  ret : ρ

section Handlers

variable {Err : Type}

/-- The source function `thresholdProfileCreate`. -/
def thresholdProfileCreate (d : ResourceData) (client : Client Err) :
    Except Panic (Outcome (Option Err)) :=
  let thresholdProfile := resourceDataToThresholdProfile d
  match client.ThresholdProfiles.Create thresholdProfile with
  | (_, some err) => .ok ⟨d, [.Create thresholdProfile], some err⟩
  | (some created, none) =>
    .ok ⟨d.SetId created.ProfileID, [.Create thresholdProfile], none⟩
  | (none, none) => .error .nilDereference

/-- The source function `thresholdProfileRead`. -/
def thresholdProfileRead (d : ResourceData) (client : Client Err) :
    Except Panic (Outcome (Option Err)) :=
  match client.ThresholdProfiles.Get d.Id with
  | (_, some err) => .ok ⟨d, [.Get d.Id], some err⟩
  | (some thresholdProfile, none) =>
    match updateThresholdProfileResourceData d thresholdProfile with
    | .ok d' => .ok ⟨d', [.Get d.Id], none⟩
    | .error p => .error p
  | (none, none) => .error .nilDereference

/-- The source function `thresholdProfileUpdate`. -/
def thresholdProfileUpdate (d : ResourceData) (client : Client Err) :
    Except Panic (Outcome (Option Err)) :=
  let thresholdProfile := resourceDataToThresholdProfile d
  match client.ThresholdProfiles.Update thresholdProfile with
  | (_, some err) => .ok ⟨d, [.Update thresholdProfile], some err⟩
  | (some updated, none) =>
    .ok ⟨d.SetId updated.ProfileID, [.Update thresholdProfile], none⟩
  | (none, none) => .error .nilDereference

/-- The source function `thresholdProfileDelete`; `IsNotFound` is the
classifier `apierrors.IsNotFound`. -/
def thresholdProfileDelete (IsNotFound : Option Err → Bool) (d : ResourceData)
    (client : Client Err) : Outcome (Option Err) :=
  let err := client.ThresholdProfiles.Delete d.Id
  if IsNotFound err then ⟨d, [.Delete d.Id], none⟩
  else ⟨d, [.Delete d.Id], err⟩

/-- The source function `thresholdProfileExists`; `IsNotFound` is the
classifier `apierrors.IsNotFound`. -/
def thresholdProfileExists (IsNotFound : Option Err → Bool) (d : ResourceData)
    (client : Client Err) : Outcome (Bool × Option Err) :=
  let err := (client.ThresholdProfiles.Get d.Id).2
  if IsNotFound err then ⟨d, [.Get d.Id], (false, none)⟩
  else
    match err with
    | some e => ⟨d, [.Get d.Id], (false, some e)⟩
    | none => ⟨d, [.Get d.Id], (true, none)⟩

end Handlers

/-! ## Schema validators of a `website_content_changes` entry -/

/-- The validator `validation.IntInSlice(valid)` applied to an integer: the
list of errors it reports, empty when the integer is one of `valid`. -/
def IntInSlice (valid : List Int) (i : Int) : List String :=
  if valid.contains i then [] else ["expected value to be one of the valid integers"]

/-- The validator `validation.IntAtMost(max)` applied to an integer: the list
of errors it reports, empty when the integer is at most `max`. -/
def IntAtMost (max : Int) (i : Int) : List String :=
  if i > max then ["expected value to be at most max"] else []

/-- One field of the element schema of `website_content_changes` (lines
84-99): whether it is required, its default, and its `ValidateFunc`. -/
structure IntField where
  Required : Bool
  Default : Option Int
  ValidateFunc : Int → List String

/-- The field `severity` of a `website_content_changes` entry. -/
def contentChangesSeverity : IntField :=
  { Required := true, Default := none, ValidateFunc := IntInSlice [2, 3] }

/-- The field `comparison_operator` of a `website_content_changes` entry. -/
def contentChangesComparisonOperator : IntField :=
  { Required := false, Default := some 1, ValidateFunc := IntInSlice [1] }

/-- The field `value` of a `website_content_changes` entry. -/
def contentChangesValue : IntField :=
  { Required := true, Default := none, ValidateFunc := IntAtMost 100 }

/-- The errors the schema reports for a `website_content_changes` entry that
gives `severity` and `value` and leaves `comparison_operator` to its default:
each field's `ValidateFunc` runs on the field's value. -/
def validateContentChange (severity value : Int) : List String :=
  contentChangesSeverity.ValidateFunc severity ++
    (match contentChangesComparisonOperator.Default with
      | some c => contentChangesComparisonOperator.ValidateFunc c
      | none => []) ++
    contentChangesValue.ValidateFunc value

/-- The entry is accepted when the schema reports no error. -/
def acceptsContentChange (severity value : Int) : Bool :=
  (validateContentChange severity value).isEmpty

/-! ## Error classifier and sample inputs -/

namespace apierrors

/-- Modelled from the spec: the error kinds of the error classifier of the
package `api/errors`, whose code is outside the file embedded here. -/
inductive Kind where
  | NotFound
  | Unauthorized
  | Validation
  | RateLimited
  | Transient
  | Fatal
  deriving DecidableEq, Repr

/-- Modelled from the spec: an error of `api/errors` carries its kind, the
HTTP status and the message. -/
structure StatusError where
  kind : Kind
  http_status : Nat
  message : String
  deriving DecidableEq, Repr

/-- Modelled from the spec: the predicate `apierrors.IsNotFound`, true of an
error of kind `NotFound` and false of `nil` and of every other error. -/
def IsNotFound : Option StatusError → Bool
  | some e => e.kind == Kind.NotFound
  | none => false

end apierrors

/-- The error of a 404 answer. -/
def notFoundError : apierrors.StatusError :=
  { kind := .NotFound, http_status := 404, message := "resource not found" }

/-- The error of a 500 answer. -/
def serverError : apierrors.StatusError :=
  { kind := .Transient, http_status := 500, message := "internal server error" }

/-- A state with every field at its zero value. -/
def freshState : ResourceData :=
  { id := "", profile_name := "", type := "", profile_type := 0
    down_location_threshold := 0, website_content_modified := false
    website_content_changes := []
    primary_response_time_trouble_threshold := []
    primary_response_time_critical_threshold := []
    secondary_response_time_trouble_threshold := []
    secondary_response_time_critical_threshold := [] }

/-- A threshold record as the host hands a config map to the adapter: the five
schema fields, every value a string. -/
def thresholdRecord (severity value polls_check : String) : GoMap :=
  [("severity", .str severity), ("comparison_operator", .str "1"), ("strategy", .str "1"),
    ("value", .str value), ("polls_check", .str polls_check)]

/-- A config that sets only `primary_response_time_trouble_threshold`. -/
def troubleConfig : ResourceData :=
  { freshState with
    id := "123", profile_name := "Website Threshold Profile", type := "URL"
    profile_type := 1, down_location_threshold := 3
    primary_response_time_trouble_threshold := thresholdRecord "2" "10000" "1" }

/-- A config that sets the four threshold maps. -/
def fullConfig : ResourceData :=
  { troubleConfig with
    primary_response_time_critical_threshold := thresholdRecord "3" "20000" "5"
    secondary_response_time_trouble_threshold := thresholdRecord "2" "30000" "1"
    secondary_response_time_critical_threshold := thresholdRecord "3" "40000" "5" }

/-- A threshold record as `encoding/json` decodes it from the API response:
every JSON number arrives as a `float64`. -/
def decodedRecord (severity value polls_check : Int) : GoMap :=
  [("severity", .float64 severity), ("comparison_operator", .float64 1),
    ("strategy", .float64 1), ("value", .float64 value),
    ("polls_check", .float64 polls_check)]

/-- The entity of scenario S2 as the API delivers it: `primary` holds the
records of severity 2 (value 10000) and severity 3 (value 20000). -/
def decodedProfile : ThresholdProfile :=
  { ProfileID := "123", ProfileName := "Website Threshold Profile", Type_ := "URL"
    ProfileType := 1, DownLocationThreshold := 3, WebsiteContentModified := false
    WebsiteContentChanges := []
    ResponseTimeThreshold :=
      [("primary", .slice [.map (decodedRecord 2 10000 1), .map (decodedRecord 3 20000 5)])] }

/-- An endpoint that answers every call with the given error and no entity. -/
def failingEndpoint (err : apierrors.StatusError) :
    ThresholdProfilesEndpoint apierrors.StatusError :=
  { Get := fun _ => (none, some err)
    Create := fun _ => (none, some err)
    Update := fun _ => (none, some err)
    Delete := fun _ => some err }

/-- A client whose server reports every id as missing (404). -/
def missingClient : Client apierrors.StatusError :=
  { ThresholdProfiles := failingEndpoint notFoundError }

/-- A client whose server fails every call with a 500. -/
def brokenClient : Client apierrors.StatusError :=
  { ThresholdProfiles := failingEndpoint serverError }

/-- A client whose server stores what it is sent: `Create` assigns the id
`"987"`, `Update` and `Get` answer with an entity, `Delete` succeeds. -/
def workingClient : Client apierrors.StatusError :=
  { ThresholdProfiles :=
      { Get := fun id => (some { decodedProfile with ProfileID := id }, none)
        Create := fun e => (some { e with ProfileID := "987" }, none)
        Update := fun e => (some e, none)
        Delete := fun _ => none } }

/-- The number a decimal numeral spells: one digit or more, nothing else. -/
def decimalNumber (cs : List Char) : Option Int :=
  match cs with
  | [] => none
  | _ :: _ =>
    if cs.all Char.isDigit then
      some (cs.foldl (fun n c => 10 * n + ((c.toNat : Int) - 48)) 0)
    else none

/-- The number a severity value stands for, whatever its Go kind: an `int` or
a `float64` stands for its value, a string for the decimal number it spells. -/
def severityNumber : GoValue → Option Int
  | .int n => some n
  | .float64 n => some n
  | .str s => decimalNumber s.data
  | _ => none

/-- The severity of a threshold record read by value: `none` when the record
has no `severity` or the value stands for no number. -/
def recordSeverity (r : GoMap) : Option Int :=
  (mapIndex r "severity").bind severityNumber

/-- The record `r` agrees with the map `m` on every key but `severity`: same
keys, same values. -/
def AgreeOffSeverity (r m : GoMap) : Prop :=
  ∀ k : String, k ≠ "severity" → mapIndex r k = mapIndex m k

/-- The value `v` is a list of threshold records as the JSON decoder delivers
it: a `[]interface{}` of maps whose `severity` is a decoded JSON number, a
`float64`. -/
def DecodedThresholdList (v : GoValue) : Prop :=
  ∃ xs, v = .slice xs ∧
    ∀ x ∈ xs, ∃ m n, x = .map m ∧ mapIndex m "severity" = some (.float64 n)

/-- The entity `resourceDataToThresholdProfile troubleConfig` as it comes back
through JSON: the list under `primary` arrives as a `[]interface{}`, its one
record with its string values and the stamped severity as they were sent. -/
def stampedProfileDecoded : ThresholdProfile :=
  { resourceDataToThresholdProfile troubleConfig with
    ResponseTimeThreshold :=
      [("primary",
        .slice [.map (mapAssign (thresholdRecord "2" "10000" "1") "severity" (.str "2"))])] }

/-! ## Reading and writing maps -/

theorem mapIndex_mapAssign_self (m : GoMap) (k : String) (v : GoValue) :
    mapIndex (mapAssign m k v) k = some v := by
  induction m with
  | nil => simp [mapAssign, mapIndex]
  | cons p rest ih =>
    obtain ⟨k', v'⟩ := p
    by_cases h : k' = k
    · simp [mapAssign, mapIndex, h]
    · simp [mapAssign, mapIndex, h, ih]

theorem mapIndex_mapAssign_ne (m : GoMap) (k k' : String) (v : GoValue) (h : k' ≠ k) :
    mapIndex (mapAssign m k v) k' = mapIndex m k' := by
  induction m with
  | nil =>
    have h' : ¬ k = k' := fun e => h e.symm
    simp [mapAssign, mapIndex, h']
  | cons p rest ih =>
    obtain ⟨k₁, v₁⟩ := p
    by_cases h₁ : k₁ = k
    · have h₂ : ¬ k₁ = k' := fun e => h (e.symm.trans h₁)
      have h₃ : ¬ k = k' := fun e => h e.symm
      simp [mapAssign, mapIndex, h₁, h₃]
    · by_cases h₂ : k₁ = k'
      · subst h₂
        simp [mapAssign, mapIndex, h₁]
      · simp [mapAssign, mapIndex, h₁, h₂, ih]

theorem agreeOffSeverity_mapAssign (m : GoMap) (v : GoValue) :
    AgreeOffSeverity (mapAssign m "severity" v) m :=
  fun k hk => mapIndex_mapAssign_ne m "severity" k v hk

/-! ## Lifecycle handlers -/

section HandlerTheorems

variable {Err : Type}

/-- C1: `thresholdProfileDelete` is idempotent on missing resources. When the
error `Delete(id)` returns is classified as NotFound the handler returns nil;
for every other result of `Delete`, nil or a non-NotFound error, it returns
that result unchanged. It issues exactly the call `Delete(id)` and leaves the
state as it was. -/
theorem thresholdProfileDelete_notFound_is_success (IsNotFound : Option Err → Bool)
    (d : ResourceData) (client : Client Err) (err : Option Err)
    (hDelete : client.ThresholdProfiles.Delete d.Id = err) :
    (IsNotFound err = true → (thresholdProfileDelete IsNotFound d client).ret = none) ∧
    (IsNotFound err = false → (thresholdProfileDelete IsNotFound d client).ret = err) ∧
    (err = none → (thresholdProfileDelete IsNotFound d client).ret = none) ∧
    (thresholdProfileDelete IsNotFound d client).d = d ∧
    (thresholdProfileDelete IsNotFound d client).calls = [Call.Delete d.Id] := by
  subst hDelete
  refine ⟨?_, ?_, ?_, ?_, ?_⟩
  · intro h; simp [thresholdProfileDelete, h]
  · intro h; simp [thresholdProfileDelete, h]
  · intro h
    by_cases hn : IsNotFound (client.ThresholdProfiles.Delete d.Id) = true
    · simp [thresholdProfileDelete, hn]
    · simp [thresholdProfileDelete, hn, h]
  · by_cases hn : IsNotFound (client.ThresholdProfiles.Delete d.Id) = true <;>
      simp [thresholdProfileDelete, hn]
  · by_cases hn : IsNotFound (client.ThresholdProfiles.Delete d.Id) = true <;>
      simp [thresholdProfileDelete, hn]

theorem thresholdProfileDelete_notFound_is_success_witness :
    (thresholdProfileDelete apierrors.IsNotFound troubleConfig missingClient).ret = none ∧
    (thresholdProfileDelete apierrors.IsNotFound troubleConfig brokenClient).ret
      = some serverError ∧
    (thresholdProfileDelete apierrors.IsNotFound troubleConfig workingClient).ret = none :=
  ⟨(thresholdProfileDelete_notFound_is_success apierrors.IsNotFound troubleConfig
      missingClient (some notFoundError) rfl).1 (by decide),
   (thresholdProfileDelete_notFound_is_success apierrors.IsNotFound troubleConfig
      brokenClient (some serverError) rfl).2.1 (by decide),
   (thresholdProfileDelete_notFound_is_success apierrors.IsNotFound troubleConfig
      workingClient none rfl).2.2.1 rfl⟩

/-- C2, the claim at a concrete input: the server reports the id `"123"` as
missing, and `thresholdProfileRead` hands that NotFound error to the host with
the state, its id included, as it was; it does not return nil with the id
cleared. -/
theorem thresholdProfileRead_notFound_counterexample :
    apierrors.IsNotFound (missingClient.ThresholdProfiles.Get troubleConfig.Id).2 = true ∧
    thresholdProfileRead troubleConfig missingClient
      = .ok ⟨troubleConfig, [Call.Get "123"], some notFoundError⟩ ∧
    ¬ ∃ o, thresholdProfileRead troubleConfig missingClient = .ok o ∧
        o.ret = none ∧ o.d.Id = "" := by
  refine ⟨by decide, rfl, ?_⟩
  rintro ⟨o, ho, hret, -⟩
  have hrun : thresholdProfileRead troubleConfig missingClient
      = .ok ⟨troubleConfig, [Call.Get "123"], some notFoundError⟩ := rfl
  rw [hrun] at ho
  injection ho with ho
  subst ho
  simp at hret

/-- C2, amended: `thresholdProfileRead` does not interpret the error of
`Get(id)`. Whenever `Get(id)` returns an error, NotFound or not, the handler
returns that same error after the one call `Get(id)` and leaves the state, its
id included, unchanged. The translation of NotFound into absence is the work
of the handler `thresholdProfileExists`, which answers `(false, nil)` for the
same response when the error is NotFound. -/
theorem thresholdProfileRead_returns_error_unchanged (IsNotFound : Option Err → Bool)
    (d : ResourceData) (client : Client Err) (found : Option ThresholdProfile) (err : Err)
    (hGet : client.ThresholdProfiles.Get d.Id = (found, some err)) :
    thresholdProfileRead d client = .ok ⟨d, [Call.Get d.Id], some err⟩ ∧
    (IsNotFound (some err) = true →
      (thresholdProfileExists IsNotFound d client).ret = (false, none)) := by
  constructor
  · simp [thresholdProfileRead, hGet]
  · intro h
    simp [thresholdProfileExists, hGet, h]

theorem thresholdProfileRead_returns_error_unchanged_witness :
    thresholdProfileRead troubleConfig missingClient
      = .ok ⟨troubleConfig, [Call.Get troubleConfig.Id], some notFoundError⟩ ∧
    (apierrors.IsNotFound (some notFoundError) = true →
      (thresholdProfileExists apierrors.IsNotFound troubleConfig missingClient).ret
        = (false, none)) :=
  thresholdProfileRead_returns_error_unchanged apierrors.IsNotFound troubleConfig
    missingClient none notFoundError rfl

/-- C3: `thresholdProfileExists` classifies the result of `Get(id)` three ways,
for a classifier that does not take nil for a NotFound error. It returns
`(false, nil)` exactly when `Get` returns a NotFound error, `(true, nil)`
exactly when `Get` returns no error, `(false, err)` with the same error for
every other error, and never `true` together with an error. -/
theorem thresholdProfileExists_three_way (IsNotFound : Option Err → Bool)
    (hnil : IsNotFound none = false) (d : ResourceData) (client : Client Err) :
    ((thresholdProfileExists IsNotFound d client).ret = (false, none) ↔
      ∃ e, (client.ThresholdProfiles.Get d.Id).2 = some e ∧ IsNotFound (some e) = true) ∧
    ((thresholdProfileExists IsNotFound d client).ret = (true, none) ↔
      (client.ThresholdProfiles.Get d.Id).2 = none) ∧
    (∀ e, (client.ThresholdProfiles.Get d.Id).2 = some e → IsNotFound (some e) = false →
      (thresholdProfileExists IsNotFound d client).ret = (false, some e)) ∧
    (∀ e, (thresholdProfileExists IsNotFound d client).ret ≠ (true, some e)) := by
  cases hget : (client.ThresholdProfiles.Get d.Id).2 with
  | none => simp [thresholdProfileExists, hget, hnil]
  | some e =>
    by_cases hnf : IsNotFound (some e) = true
    · simp [thresholdProfileExists, hget, hnf]
    · simp [thresholdProfileExists, hget, hnf]

theorem thresholdProfileExists_three_way_witness :
    (thresholdProfileExists apierrors.IsNotFound troubleConfig missingClient).ret
      = (false, none) ∧
    (thresholdProfileExists apierrors.IsNotFound troubleConfig workingClient).ret
      = (true, none) ∧
    (thresholdProfileExists apierrors.IsNotFound troubleConfig brokenClient).ret
      = (false, some serverError) :=
  ⟨(thresholdProfileExists_three_way apierrors.IsNotFound rfl troubleConfig
      missingClient).1.2 ⟨notFoundError, rfl, by decide⟩,
   (thresholdProfileExists_three_way apierrors.IsNotFound rfl troubleConfig
      workingClient).2.1.2 rfl,
   (thresholdProfileExists_three_way apierrors.IsNotFound rfl troubleConfig
      brokenClient).2.2.1 serverError rfl (by decide)⟩

/-- C8: `thresholdProfileCreate` mirrors the server-assigned id. When `Create`
answers the entity built by `resourceDataToThresholdProfile` with an entity
`e` and no error, the handler issues exactly that one call, returns nil and
leaves the state with id `e.ProfileID` and every other field as it was; when
`Create` answers with an error, the handler returns that same error and the
state, its id included, is unchanged. -/
theorem thresholdProfileCreate_mirrors_id (d : ResourceData) (client : Client Err)
    (answer : Option ThresholdProfile × Option Err)
    (hCreate : client.ThresholdProfiles.Create (resourceDataToThresholdProfile d) = answer) :
    (∀ e, answer = (some e, none) →
      ∃ o, thresholdProfileCreate d client = .ok o ∧
        o.calls = [Call.Create (resourceDataToThresholdProfile d)] ∧
        o.ret = none ∧ o.d.Id = e.ProfileID ∧ o.d = { d with id := e.ProfileID }) ∧
    (∀ found err, answer = (found, some err) →
      thresholdProfileCreate d client
        = .ok ⟨d, [Call.Create (resourceDataToThresholdProfile d)], some err⟩) := by
  subst hCreate
  constructor
  · intro e he
    refine ⟨⟨d.SetId e.ProfileID, [Call.Create (resourceDataToThresholdProfile d)], none⟩,
      ?_, rfl, rfl, rfl, rfl⟩
    simp [thresholdProfileCreate, he]
  · intro found err he
    simp [thresholdProfileCreate, he]

theorem thresholdProfileCreate_mirrors_id_witness :
    (∃ o, thresholdProfileCreate troubleConfig workingClient = .ok o ∧
        o.calls = [Call.Create (resourceDataToThresholdProfile troubleConfig)] ∧
        o.ret = none ∧ o.d.Id = "987" ∧ o.d = { troubleConfig with id := "987" }) ∧
    thresholdProfileCreate troubleConfig brokenClient
      = .ok ⟨troubleConfig, [Call.Create (resourceDataToThresholdProfile troubleConfig)],
          some serverError⟩ :=
  ⟨(thresholdProfileCreate_mirrors_id troubleConfig workingClient _ rfl).1
      { resourceDataToThresholdProfile troubleConfig with ProfileID := "987" } rfl,
   (thresholdProfileCreate_mirrors_id troubleConfig brokenClient _ rfl).2
      none serverError rfl⟩

end HandlerTheorems

/-! ## Writing: config to entity -/

theorem responseTimeThreshold_primary (d : ResourceData) :
    mapIndex (resourceDataToThresholdProfile d).ResponseTimeThreshold "primary" =
      (match GetOkMap d.primary_response_time_trouble_threshold,
          GetOkMap d.primary_response_time_critical_threshold with
        | true, true => some (.mapSlice
            [mapAssign d.primary_response_time_trouble_threshold "severity" (.str "2"),
             mapAssign d.primary_response_time_critical_threshold "severity" (.str "3")])
        | true, false => some (.mapSlice
            [mapAssign d.primary_response_time_trouble_threshold "severity" (.str "2")])
        | false, true => some (.mapSlice
            [mapAssign d.primary_response_time_critical_threshold "severity" (.str "3")])
        | false, false => none) := by
  cases h1 : GetOkMap d.primary_response_time_trouble_threshold <;>
  cases h2 : GetOkMap d.primary_response_time_critical_threshold <;>
  cases h3 : GetOkMap d.secondary_response_time_trouble_threshold <;>
  cases h4 : GetOkMap d.secondary_response_time_critical_threshold <;>
  simp [resourceDataToThresholdProfile, h1, h2, h3, h4, mapAssign, mapIndex]

theorem responseTimeThreshold_secondary (d : ResourceData) :
    mapIndex (resourceDataToThresholdProfile d).ResponseTimeThreshold "secondary" =
      (match GetOkMap d.secondary_response_time_trouble_threshold,
          GetOkMap d.secondary_response_time_critical_threshold with
        | true, true => some (.mapSlice
            [mapAssign d.secondary_response_time_trouble_threshold "severity" (.str "2"),
             mapAssign d.secondary_response_time_critical_threshold "severity" (.str "3")])
        | true, false => some (.mapSlice
            [mapAssign d.secondary_response_time_trouble_threshold "severity" (.str "2")])
        | false, true => some (.mapSlice
            [mapAssign d.secondary_response_time_critical_threshold "severity" (.str "3")])
        | false, false => none) := by
  cases h1 : GetOkMap d.primary_response_time_trouble_threshold <;>
  cases h2 : GetOkMap d.primary_response_time_critical_threshold <;>
  cases h3 : GetOkMap d.secondary_response_time_trouble_threshold <;>
  cases h4 : GetOkMap d.secondary_response_time_critical_threshold <;>
  simp [resourceDataToThresholdProfile, h1, h2, h3, h4, mapAssign, mapIndex]

/-- C7: grouping and order on write. For every config there are records
`pt`, `pc`, `st`, `sc`, each with a `severity` and otherwise the same keys and
values as the config map it is built from, such that the list stored under
`primary` holds exactly the records of the set primary maps, trouble before
critical, and none of a secondary map, and symmetrically for `secondary`; a
key whose two maps are both unset is absent. -/
theorem resourceDataToThresholdProfile_groups_in_order (d : ResourceData) :
    ∃ pt pc st sc : GoMap,
      (AgreeOffSeverity pt d.primary_response_time_trouble_threshold ∧
        mapIndex pt "severity" ≠ none) ∧
      (AgreeOffSeverity pc d.primary_response_time_critical_threshold ∧
        mapIndex pc "severity" ≠ none) ∧
      (AgreeOffSeverity st d.secondary_response_time_trouble_threshold ∧
        mapIndex st "severity" ≠ none) ∧
      (AgreeOffSeverity sc d.secondary_response_time_critical_threshold ∧
        mapIndex sc "severity" ≠ none) ∧
      mapIndex (resourceDataToThresholdProfile d).ResponseTimeThreshold "primary" =
        (match GetOkMap d.primary_response_time_trouble_threshold,
            GetOkMap d.primary_response_time_critical_threshold with
          | true, true => some (.mapSlice [pt, pc])
          | true, false => some (.mapSlice [pt])
          | false, true => some (.mapSlice [pc])
          | false, false => none) ∧
      mapIndex (resourceDataToThresholdProfile d).ResponseTimeThreshold "secondary" =
        (match GetOkMap d.secondary_response_time_trouble_threshold,
            GetOkMap d.secondary_response_time_critical_threshold with
          | true, true => some (.mapSlice [st, sc])
          | true, false => some (.mapSlice [st])
          | false, true => some (.mapSlice [sc])
          | false, false => none) := by
  refine ⟨mapAssign d.primary_response_time_trouble_threshold "severity" (.str "2"),
    mapAssign d.primary_response_time_critical_threshold "severity" (.str "3"),
    mapAssign d.secondary_response_time_trouble_threshold "severity" (.str "2"),
    mapAssign d.secondary_response_time_critical_threshold "severity" (.str "3"),
    ⟨agreeOffSeverity_mapAssign _ _, ?_⟩, ⟨agreeOffSeverity_mapAssign _ _, ?_⟩,
    ⟨agreeOffSeverity_mapAssign _ _, ?_⟩, ⟨agreeOffSeverity_mapAssign _ _, ?_⟩,
    responseTimeThreshold_primary d, responseTimeThreshold_secondary d⟩ <;>
  simp [mapIndex_mapAssign_self]

/-- C6, the code at the config that sets the four threshold maps: every
emitted record carries as its severity the string `"2"` (trouble) or `"3"`
(critical), not the integer, and the comparison with the integer 2 or 3 that
`updateThresholdProfileResourceData` performs on read is false of these
values. -/
theorem resourceDataToThresholdProfile_stamps_string_severity :
    (resourceDataToThresholdProfile fullConfig).ResponseTimeThreshold =
      [("primary", .mapSlice
          [[("severity", .str "2"), ("comparison_operator", .str "1"), ("strategy", .str "1"),
              ("value", .str "10000"), ("polls_check", .str "1")],
            [("severity", .str "3"), ("comparison_operator", .str "1"), ("strategy", .str "1"),
              ("value", .str "20000"), ("polls_check", .str "5")]]),
        ("secondary", .mapSlice
          [[("severity", .str "2"), ("comparison_operator", .str "1"), ("strategy", .str "1"),
              ("value", .str "30000"), ("polls_check", .str "1")],
            [("severity", .str "3"), ("comparison_operator", .str "1"), ("strategy", .str "1"),
              ("value", .str "40000"), ("polls_check", .str "5")]])] ∧
    ifaceEqInt (.str "2") 2 = false ∧ ifaceEqInt (.str "3") 3 = false ∧
    GoValue.str "2" ≠ GoValue.int 2 ∧ GoValue.str "3" ≠ GoValue.int 3 := by
  refine ⟨rfl, rfl, rfl, ?_, ?_⟩ <;> intro h <;> cases h

/-- The structure of the written lists, for every config: a list stored under
`primary` or `secondary` is non-empty, has at most two records, no two of them
with the same severity, and every record carries the string `"2"` or the
string `"3"` as its severity, never an integer. -/
theorem resourceDataToThresholdProfile_lists_structure (d : ResourceData) (key : String)
    (v : GoValue) (hkey : key = "primary" ∨ key = "secondary")
    (hv : mapIndex (resourceDataToThresholdProfile d).ResponseTimeThreshold key = some v) :
    ∃ L : List GoMap, v = .mapSlice L ∧ L ≠ [] ∧ L.length ≤ 2 ∧
      L.Pairwise (fun a b => mapIndex a "severity" ≠ mapIndex b "severity") ∧
      ∀ r ∈ L,
        (mapIndex r "severity" = some (.str "2") ∨ mapIndex r "severity" = some (.str "3")) ∧
        ∀ n : Int, mapIndex r "severity" ≠ some (.int n) := by
  rcases hkey with rfl | rfl
  · rw [responseTimeThreshold_primary] at hv
    cases h1 : GetOkMap d.primary_response_time_trouble_threshold <;>
    cases h2 : GetOkMap d.primary_response_time_critical_threshold <;>
    simp only [h1, h2] at hv <;>
    cases hv <;>
    exact ⟨_, rfl, by simp, by simp, by simp [mapIndex_mapAssign_self],
      by simp [mapIndex_mapAssign_self]⟩
  · rw [responseTimeThreshold_secondary] at hv
    cases h1 : GetOkMap d.secondary_response_time_trouble_threshold <;>
    cases h2 : GetOkMap d.secondary_response_time_critical_threshold <;>
    simp only [h1, h2] at hv <;>
    cases hv <;>
    exact ⟨_, rfl, by simp, by simp, by simp [mapIndex_mapAssign_self],
      by simp [mapIndex_mapAssign_self]⟩

theorem recordSeverity_trouble (m : GoMap) :
    recordSeverity (mapAssign m "severity" (.str "2")) = some 2 := by
  simp only [recordSeverity, mapIndex_mapAssign_self, Option.bind, severityNumber]
  decide

theorem recordSeverity_critical (m : GoMap) :
    recordSeverity (mapAssign m "severity" (.str "3")) = some 3 := by
  simp only [recordSeverity, mapIndex_mapAssign_self, Option.bind, severityNumber]
  decide

/-- C9: severity uniqueness of the written entity. For every config, whatever
severity values its flat maps carry, a list stored under `primary` or
`secondary` is non-empty (the key is present only then), has at most two
records, holds the trouble severity 2 at most once and the critical severity
3 at most once, and holds no record of another severity. The severity of a
record is read by the number it stands for. -/
theorem resourceDataToThresholdProfile_severity_unique (d : ResourceData) (key : String)
    (v : GoValue) (hkey : key = "primary" ∨ key = "secondary")
    (hv : mapIndex (resourceDataToThresholdProfile d).ResponseTimeThreshold key = some v) :
    ∃ L : List GoMap, v = .mapSlice L ∧ L ≠ [] ∧ L.length ≤ 2 ∧
      (L.filter fun r => recordSeverity r == some 2).length ≤ 1 ∧
      (L.filter fun r => recordSeverity r == some 3).length ≤ 1 ∧
      ∀ r ∈ L, recordSeverity r = some 2 ∨ recordSeverity r = some 3 := by
  rcases hkey with rfl | rfl
  · rw [responseTimeThreshold_primary] at hv
    cases h1 : GetOkMap d.primary_response_time_trouble_threshold <;>
    cases h2 : GetOkMap d.primary_response_time_critical_threshold <;>
    simp only [h1, h2] at hv <;>
    cases hv <;>
    exact ⟨_, rfl, by simp, by simp,
      by simp [List.filter, recordSeverity_trouble, recordSeverity_critical],
      by simp [List.filter, recordSeverity_trouble, recordSeverity_critical],
      by simp [recordSeverity_trouble, recordSeverity_critical]⟩
  · rw [responseTimeThreshold_secondary] at hv
    cases h1 : GetOkMap d.secondary_response_time_trouble_threshold <;>
    cases h2 : GetOkMap d.secondary_response_time_critical_threshold <;>
    simp only [h1, h2] at hv <;>
    cases hv <;>
    exact ⟨_, rfl, by simp, by simp,
      by simp [List.filter, recordSeverity_trouble, recordSeverity_critical],
      by simp [List.filter, recordSeverity_trouble, recordSeverity_critical],
      by simp [recordSeverity_trouble, recordSeverity_critical]⟩

theorem resourceDataToThresholdProfile_severity_unique_witness :
    ∃ L : List GoMap,
      GoValue.mapSlice
          [mapAssign (thresholdRecord "2" "10000" "1") "severity" (.str "2"),
            mapAssign (thresholdRecord "3" "20000" "5") "severity" (.str "3")]
        = .mapSlice L ∧
      L ≠ [] ∧ L.length ≤ 2 ∧
      (L.filter fun r => recordSeverity r == some 2).length ≤ 1 ∧
      (L.filter fun r => recordSeverity r == some 3).length ≤ 1 ∧
      ∀ r ∈ L, recordSeverity r = some 2 ∨ recordSeverity r = some 3 :=
  resourceDataToThresholdProfile_severity_unique fullConfig "primary" _ (Or.inl rfl) rfl

/-! ## Reading: entity to state -/

theorem primaryThresholdLoop_decoded (d : ResourceData) (xs : List GoValue)
    (h : ∀ x ∈ xs, ∃ m n, x = .map m ∧ mapIndex m "severity" = some (.float64 n)) :
    primaryThresholdLoop d xs = .ok d := by
  induction xs with
  | nil => rfl
  | cons x rest ih =>
    obtain ⟨m, n, rfl, hsev⟩ := h x (List.mem_cons_self _ _)
    have hrest := ih fun y hy => h y (List.mem_cons_of_mem _ hy)
    simp [primaryThresholdLoop, hsev, ifaceEqInt, hrest]

theorem secondaryThresholdLoop_decoded (d : ResourceData) (xs : List GoValue)
    (h : ∀ x ∈ xs, ∃ m n, x = .map m ∧ mapIndex m "severity" = some (.float64 n)) :
    secondaryThresholdLoop d xs = .ok d := by
  induction xs with
  | nil => rfl
  | cons x rest ih =>
    obtain ⟨m, n, rfl, hsev⟩ := h x (List.mem_cons_self _ _)
    have hrest := ih fun y hy => h y (List.mem_cons_of_mem _ hy)
    simp [secondaryThresholdLoop, hsev, ifaceEqInt, hrest]

/-- C5, the code on every entity as the API delivers it: when the lists under
`primary` and `secondary` are decoded from JSON, so that every record's
severity is a `float64`, `updateThresholdProfileResourceData` returns with the
four flat threshold maps of the state exactly as they were before the call; no
record is dispatched, whatever its severity. -/
theorem updateThresholdProfileResourceData_decoded_never_dispatches (s : ResourceData)
    (thresholdProfile : ThresholdProfile)
    (hdecoded : ∀ key v, key = "primary" ∨ key = "secondary" →
      mapIndex thresholdProfile.ResponseTimeThreshold key = some v → DecodedThresholdList v) :
    ∃ s', updateThresholdProfileResourceData s thresholdProfile = .ok s' ∧
      s'.primary_response_time_trouble_threshold = s.primary_response_time_trouble_threshold ∧
      s'.primary_response_time_critical_threshold
        = s.primary_response_time_critical_threshold ∧
      s'.secondary_response_time_trouble_threshold
        = s.secondary_response_time_trouble_threshold ∧
      s'.secondary_response_time_critical_threshold
        = s.secondary_response_time_critical_threshold := by
  have hprim : ∀ d, updatePrimaryThreshold d thresholdProfile = .ok d := by
    intro d
    unfold updatePrimaryThreshold
    cases hpv : mapIndex thresholdProfile.ResponseTimeThreshold "primary" with
    | none => rfl
    | some v =>
      obtain ⟨xs, rfl, hxs⟩ := hdecoded "primary" v (Or.inl rfl) hpv
      by_cases hlen : xs.length > 0
      · simp only [hlen, if_true]
        exact primaryThresholdLoop_decoded d xs hxs
      · simp only [hlen, if_false]
  have hsec : ∀ d, updateSecondaryThreshold d thresholdProfile = .ok d := by
    intro d
    unfold updateSecondaryThreshold
    cases hsv : mapIndex thresholdProfile.ResponseTimeThreshold "secondary" with
    | none => rfl
    | some v =>
      obtain ⟨xs, rfl, hxs⟩ := hdecoded "secondary" v (Or.inr rfl) hsv
      by_cases hlen : xs.length > 0
      · simp only [hlen, if_true]
        exact secondaryThresholdLoop_decoded d xs hxs
      · simp only [hlen, if_false]
  refine ⟨updateProfileFields s thresholdProfile, ?_, rfl, rfl, rfl, rfl⟩
  simp only [updateThresholdProfileResourceData, hprim, hsec]

theorem updateThresholdProfileResourceData_decoded_never_dispatches_witness :
    ∃ s', updateThresholdProfileResourceData freshState decodedProfile = .ok s' ∧
      s'.primary_response_time_trouble_threshold = [] ∧
      s'.primary_response_time_critical_threshold = [] ∧
      s'.secondary_response_time_trouble_threshold = [] ∧
      s'.secondary_response_time_critical_threshold = [] :=
  updateThresholdProfileResourceData_decoded_never_dispatches freshState decodedProfile
    (by
      intro key v hkey hv
      rcases hkey with rfl | rfl
      · have hlook : mapIndex decodedProfile.ResponseTimeThreshold "primary"
            = some (.slice [.map (decodedRecord 2 10000 1), .map (decodedRecord 3 20000 5)]) :=
          rfl
        rw [hlook] at hv
        cases hv
        refine ⟨_, rfl, ?_⟩
        intro x hx
        simp only [List.mem_cons, List.mem_singleton, List.not_mem_nil, or_false] at hx
        rcases hx with rfl | rfl
        · exact ⟨_, 2, rfl, rfl⟩
        · exact ⟨_, 3, rfl, rfl⟩
      · have hlook : mapIndex decodedProfile.ResponseTimeThreshold "secondary" = none := rfl
        rw [hlook] at hv
        cases hv)

/-! ## Round trip -/

/-- C4, the code on every config that sets at least one of the four threshold
maps: writing the entity of `resourceDataToThresholdProfile` back with
`updateThresholdProfileResourceData` does not return a state at all. The
entity holds its lists as `[]map[string]interface{}`, the type assertion
`.([]interface{})` of the read path fails on them, and the call panics,
whatever the state it started from. -/
theorem roundTrip_panics_when_threshold_set (s d : ResourceData)
    (hset : GetOkMap d.primary_response_time_trouble_threshold = true ∨
      GetOkMap d.primary_response_time_critical_threshold = true ∨
      GetOkMap d.secondary_response_time_trouble_threshold = true ∨
      GetOkMap d.secondary_response_time_critical_threshold = true) :
    updateThresholdProfileResourceData s (resourceDataToThresholdProfile d)
      = .error .interfaceConversion := by
  have hp := responseTimeThreshold_primary d
  have hs := responseTimeThreshold_secondary d
  cases h1 : GetOkMap d.primary_response_time_trouble_threshold <;>
  cases h2 : GetOkMap d.primary_response_time_critical_threshold <;>
  cases h3 : GetOkMap d.secondary_response_time_trouble_threshold <;>
  cases h4 : GetOkMap d.secondary_response_time_critical_threshold <;>
  simp only [h1, h2, h3, h4] at hp hs hset <;>
  simp [updateThresholdProfileResourceData, updatePrimaryThreshold,
    updateSecondaryThreshold, hp, hs] at hset ⊢

theorem roundTrip_panics_when_threshold_set_witness :
    updateThresholdProfileResourceData freshState (resourceDataToThresholdProfile troubleConfig)
      = .error .interfaceConversion ∧
    ∃ s', updateThresholdProfileResourceData freshState stampedProfileDecoded = .ok s' ∧
      s'.primary_response_time_trouble_threshold = [] :=
  ⟨roundTrip_panics_when_threshold_set freshState troubleConfig (Or.inl rfl),
   ⟨updateProfileFields freshState stampedProfileDecoded, rfl, rfl⟩⟩

/-! ## Schema validation of `website_content_changes` -/

/-- C10, the claim at a concrete input: the entry with severity 2 and value
-1 is accepted although -1 is below 0, so acceptance is not equivalent to
`severity ∈ {2, 3}` and `0 ≤ value ≤ 100`. -/
theorem acceptsContentChange_negative_counterexample :
    acceptsContentChange 2 (-1) = true ∧
    ¬ (acceptsContentChange 2 (-1) = true ↔
        ((2 : Int) = 2 ∨ (2 : Int) = 3) ∧ (0 : Int) ≤ -1 ∧ (-1 : Int) ≤ 100) := by
  decide

/-- C10, amended: the validators of a `website_content_changes` entry accept
the pair `(severity, value)` if and only if the severity is 2 or 3 and the
value is at most 100. Every value above 100 is rejected; there is no lower
bound, so a value below 0 is accepted. -/
theorem acceptsContentChange_iff (severity value : Int) :
    acceptsContentChange severity value = true ↔
      (severity = 2 ∨ severity = 3) ∧ value ≤ 100 := by
  simp only [acceptsContentChange, validateContentChange, contentChangesSeverity,
    contentChangesComparisonOperator, contentChangesValue, IntInSlice, IntAtMost]
  by_cases hv : value > 100
  · have hv' : ¬ value ≤ 100 := by omega
    simp [hv, hv']
  · have hv' : value ≤ 100 := by omega
    by_cases h2 : severity = 2
    · simp [hv, hv', h2]
    · by_cases h3 : severity = 3
      · simp [hv, hv', h3]
      · simp [hv, hv', h2, h3]

end Site24x7
